import Mathlib

/-!
Verification of the analog-mouse-control core in `src/main.py`.

The Python source works with real-valued axis readings, speeds and delays;
its arithmetic is modelled here with exact rationals (`ℚ`).  Device polling,
OS event injection and logging are external collaborators: they appear only
as the values the core hands to them (emitted events, log counts).
-/

namespace AnalogMouseControl

/-- Embeds the `GamepadConfig` dataclass with its default field values. -/
structure GamepadConfig where
  left_max_speed : ℚ := 20
  left_acceleration : ℚ := 2/5
  left_deadzone : ℚ := 0
  right_max_speed : ℚ := 5
  right_acceleration : ℚ := 1/10
  right_deadzone : ℚ := 0
  refresh_rate : ℚ := 1/200
  left_click_button : ℕ := 7
  right_click_button : ℕ := 6
  scroll_up_button : ℕ := 4
  scroll_down_button : ℕ := 5
  left_x_axis : ℕ := 0
  left_y_axis : ℕ := 1
  right_x_axis : ℕ := 2
  right_y_axis : ℕ := 4
  restart_delay : ℚ := 1/2

/-- The mutable fields a `GamepadController` instance carries, as set up by
`GamepadController.__init__` (defaults are the initial values there).  The
two-entry dicts `button_states` and `scroll_thread_active` are flattened
into one Boolean field per key. -/
structure ControllerState where
  config : GamepadConfig := {}
  running : Bool := false
  left_motion : ℚ × ℚ := (0, 0)
  right_motion : ℚ × ℚ := (0, 0)
  left_speed : ℚ := 0
  right_speed : ℚ := 0
  left_click_state : Bool := false
  right_click_state : Bool := false
  scroll_up_active : Bool := false
  scroll_down_active : Bool := false

/-- Embeds `GamepadController.stop`: sets `running` false and clears every
entry of `scroll_thread_active`; the trailing `logging.info` call has no
effect on controller state. -/
def stop (s : ControllerState) : ControllerState :=
  { s with running := false, scroll_up_active := false, scroll_down_active := false }

/-- Embeds Python `math.copysign x v`: the magnitude of `x` with the sign of
`v` (non-negative for `v = 0`, matching the sign of float `+0.0`). -/
def copysign (x v : ℚ) : ℚ :=
  if v < 0 then -|x| else |x|

/-- Embeds `GamepadController._apply_deadzone`. -/
def apply_deadzone (value deadzone : ℚ) : ℚ :=
  if |value| ≤ deadzone then 0 else copysign ((|value| - deadzone) / (1 - deadzone)) value

/-- Embeds the Python builtin `min` on two (here exact rational) floats;
kept as an explicit conditional so that it evaluates by kernel reduction. -/
def pymin (a b : ℚ) : ℚ :=
  if a ≤ b then a else b

/-- Embeds the Python builtin `max` on two (here exact rational) floats;
kept as an explicit conditional so that it evaluates by kernel reduction. -/
def pymax (a b : ℚ) : ℚ :=
  if a ≤ b then b else a

/-- Embeds `GamepadController._calculate_motion`.  The source computes
`magnitude = math.sqrt(x*x + y*y)`; exact square roots are not computable on
`ℚ`, so the magnitude is passed as the argument `magnitude`, which the
theorems constrain by `0 ≤ magnitude` and `magnitude * magnitude = x*x + y*y`. -/
def calculate_motion (x y max_speed acceleration current_speed magnitude : ℚ) :
    (ℚ × ℚ) × ℚ :=
  if magnitude > 0 then
    let norm_x := x / magnitude
    let norm_y := y / magnitude
    let target_speed := pymin (magnitude * max_speed) max_speed
    let new_speed :=
      if target_speed > current_speed then pymin target_speed (current_speed + acceleration)
      else pymax target_speed (current_speed - acceleration * 2)
    ((norm_x * new_speed, norm_y * new_speed), new_speed)
  else ((0, 0), 0)

/-- The persisted per-stick speed after `n` sampling ticks of a constant
shaped input `(x, y)` whose magnitude is `m`, starting from the initial
speed `0` set in `__init__` (the second component of `_calculate_motion`,
fed back as `current_speed` each tick, as in `_read_analog_inputs`). -/
def speed_after (max_speed acceleration x y m : ℚ) : ℕ → ℚ
  | 0 => 0
  | n + 1 => (calculate_motion x y max_speed acceleration
      (speed_after max_speed acceleration x y m n) m).2

/-- The persisted per-stick speed after a list of sampling ticks, each tick
supplying a shaped input `(x, y, magnitude)`, starting from speed `0`. -/
def speed_after_ticks (max_speed acceleration : ℚ) (inputs : List (ℚ × ℚ × ℚ)) : ℚ :=
  inputs.foldl (fun s i => (calculate_motion i.1 i.2.1 max_speed acceleration s i.2.2).2) 0

/-- Embeds Python `int()` on a (here exact rational) float: truncation toward
zero, i.e. the floor for non-negative values and the ceiling for negative
ones. -/
def int_trunc (q : ℚ) : ℤ :=
  if q < 0 then ⌈q⌉ else ⌊q⌋

/-- Embeds one iteration body of `GamepadController._mouse_mover`: sums the
two motion vectors and, when the (untruncated) sum is non-zero in either
component — Python truthiness of `total_x or total_y` — emits
`mouse_move(int(total_x), int(total_y))`, returned here as `some (dx, dy)`. -/
def mouse_mover_tick (s : ControllerState) : Option (ℤ × ℤ) :=
  let total_x := s.left_motion.1 + s.right_motion.1
  let total_y := s.left_motion.2 + s.right_motion.2
  if total_x ≠ 0 ∨ total_y ≠ 0 then some (int_trunc total_x, int_trunc total_y) else none

/-- Embeds the per-button body of `GamepadController._handle_buttons`: given
the freshly polled state and the stored state, returns the emitted click
event (`some current` encodes `mouse_click(down=current, ...)`) and the new
stored state (updated only inside the `if current != stored` branch). -/
def handle_button (current stored : Bool) : Option Bool × Bool :=
  if current ≠ stored then (some current, current) else (none, stored)

/-- Runs `handle_button` over a sequence of polled states, collecting the
emitted click events in order and threading the stored state. -/
def run_button : List Bool → Bool → List Bool × Bool
  | [], stored => ([], stored)
  | c :: cs, stored =>
    let step := handle_button c stored
    let rest := run_button cs step.2
    (step.1.toList ++ rest.1, rest.2)

/-- State of one scroll direction, instrumented for the dispatch race:
`active` is `scroll_thread_active[direction]`, `started` counts repeater
threads started so far, and `pending` counts dispatched threads that have
not yet executed their first statement. -/
structure ScrollDirState where
  active : Bool := false
  started : ℕ := 0
  pending : ℕ := 0

/-- Embeds the per-direction branch of `GamepadController._handle_scroll`:
when the button is pressed and the flag is false, a repeater thread is
dispatched — the sampling side itself does not write the flag; when the
button is released and the flag is true, the flag is cleared. -/
def handle_scroll (pressed : Bool) (s : ScrollDirState) : ScrollDirState :=
  if pressed && !s.active then { s with started := s.started + 1, pending := s.pending + 1 }
  else if !pressed && s.active then { s with active := false }
  else s

/-- The first statement of `GamepadController._scroll_thread`, executed once
a dispatched thread is scheduled: it sets the direction's active flag. -/
def scroll_thread_start (s : ScrollDirState) : ScrollDirState :=
  if 0 < s.pending then { s with active := true, pending := s.pending - 1 } else s

/-- The two scroll directions of `_handle_scroll` / `_scroll_thread`. -/
inductive ScrollDir where
  | up : ScrollDir
  | down : ScrollDir

/-- The wheel tick count emitted by `_scroll_thread`:
`mouse_scroll(120 if direction == 'up' else -120)`. -/
def scroll_amount : ScrollDir → ℤ
  | ScrollDir.up => 120
  | ScrollDir.down => -120

/-- The delay slept by `_scroll_thread` on its `n`-th iteration: it starts at
`0.12` and is updated by `delay = max(0.02, delay * 0.9)` after each sleep. -/
def scroll_delay : ℕ → ℚ
  | 0 => 12/100
  | n + 1 => max (2/100) (scroll_delay n * (9/10))

/-- Observable outcome of running one of the controller loops: the final
controller state, how many loop iterations executed a body, how many error
messages were logged, and whether an exception occurred. -/
structure LoopResult where
  state : ControllerState
  executed : ℕ
  logged : ℕ
  errored : Bool

/-- Embeds the shared skeleton of `GamepadController._input_listener` and
`GamepadController._mouse_mover`:
`while self.running:` / `try: body` / `except: logging.error(...); self.stop(); break`.
The per-iteration body (device polling plus event emission, which may raise)
is abstracted as one `Except`-valued state transformer per tick. -/
def run_loop : List (ControllerState → Except String ControllerState) → ControllerState →
    LoopResult
  | [], s => ⟨s, 0, 0, false⟩
  | body :: rest, s =>
    if s.running then
      match body s with
      | Except.ok s2 =>
        let r := run_loop rest s2
        ⟨r.state, r.executed + 1, r.logged, r.errored⟩
      | Except.error _ => ⟨stop s, 1, 1, true⟩
    else ⟨s, 0, 0, false⟩

/-- A concrete emission-loop state: the left stick moving with a velocity
whose components are below one unit per tick. -/
def mouse_mover_cex_state : ControllerState :=
  { running := true, left_motion := (1/2, 0) }

/-- A concrete emission-loop state with a whole-unit velocity sum. -/
def mouse_mover_wit_state : ControllerState :=
  { running := true, right_motion := (3, -2) }

/-- A loop body that raises, standing for a `pygame` poll or `SendInput`
call failing. -/
def loop_err_body : ControllerState → Except String ControllerState :=
  fun _ => Except.error "device unplugged"

/-- A running controller state. -/
def loop_wit_state : ControllerState :=
  { running := true }

/-- A controller state with everything switched on. -/
def stop_wit_state : ControllerState :=
  { running := true, scroll_up_active := true, scroll_down_active := true, left_speed := 3 }

/-- A controller state carrying non-trivial motion data. -/
def stop_frame_wit_state : ControllerState :=
  { running := true, left_motion := (4, -1), left_speed := 7, right_speed := 2,
    left_click_state := true, scroll_up_active := true }

/-- `pymin` agrees with the order-theoretic `min` on `ℚ`. -/
theorem pymin_eq_min (a b : ℚ) : pymin a b = min a b :=
  (min_def a b).symm

/-- `pymax` agrees with the order-theoretic `max` on `ℚ`. -/
theorem pymax_eq_max (a b : ℚ) : pymax a b = max a b :=
  (max_def a b).symm

/-- C2: for raw axis value `v` in `[-1, 1]` and deadzone `d` in `[0, 1)`,
`_apply_deadzone` returns `0` when `|v| ≤ d` and `sign(v) * (|v| - d) / (1 - d)`
otherwise; for `v = 1`, `d = 0.3` the output is exactly `1`, and the output
is exactly `0` at the deadzone boundary `|v| = d`. -/
theorem apply_deadzone_shaping (v d : ℚ) (hv : |v| ≤ 1) (hd0 : 0 ≤ d) (hd1 : d < 1) :
    (|v| ≤ d → apply_deadzone v d = 0) ∧
    (d < |v| → apply_deadzone v d =
      (if v < 0 then (-1 : ℚ) else 1) * ((|v| - d) / (1 - d))) ∧
    apply_deadzone 1 (3/10) = 1 ∧
    (|v| = d → apply_deadzone v d = 0) := by
  refine ⟨fun h => ?_, fun h => ?_, by norm_num [apply_deadzone, copysign], fun h => ?_⟩
  · simp [apply_deadzone, h]
  · have hnn : 0 ≤ (|v| - d) / (1 - d) := div_nonneg (by linarith) (by linarith)
    unfold apply_deadzone copysign
    rw [if_neg (not_le.mpr h), abs_of_nonneg hnn]
    split_ifs with hv0 <;> ring
  · simp [apply_deadzone, le_of_eq h]

/-- Witness for C2 at `v = 1`, `d = 0.3`. -/
theorem apply_deadzone_shaping_witness : apply_deadzone 1 (3/10) = 1 :=
  (apply_deadzone_shaping 1 (3/10) (by norm_num) (by norm_num) (by norm_num)).2.2.1

/-- The persisted speed produced by one velocity-curve application, for a
positive magnitude. -/
theorem calculate_motion_snd (x y M a s m : ℚ) (hm : m > 0) :
    (calculate_motion x y M a s m).2 =
      if min (m * M) M > s then min (min (m * M) M) (s + a)
      else max (min (m * M) M) (s - a * 2) := by
  simp [calculate_motion, hm, pymin_eq_min, pymax_eq_max]

/-- The persisted speed produced by one velocity-curve application, for a
non-positive magnitude. -/
theorem calculate_motion_snd_zero (x y M a s m : ℚ) (hm : ¬ m > 0) :
    (calculate_motion x y M a s m).2 = 0 := by
  simp [calculate_motion, hm]

/-- One acceleration step of the left stick's default configuration at full
deflection: below the cap the speed grows by exactly one acceleration
step. -/
theorem calculate_motion_full_step (s : ℚ) (h0 : s + 2/5 ≤ 20) :
    (calculate_motion 1 0 20 (2/5) s 1).2 = s + 2/5 := by
  rw [calculate_motion_snd 1 0 20 (2/5) s 1 one_pos]
  have hs : s < 20 := by linarith
  rw [one_mul, min_self, if_pos hs]
  exact min_eq_right h0

/-- Sustained full-magnitude input with max speed `20` and acceleration
`2/5`: for the first fifty ticks the persisted speed is exactly `n` steps. -/
theorem speed_after_ramp_formula :
    ∀ n : ℕ, n ≤ 50 → speed_after 20 (2/5) 1 0 1 n = n * (2/5) := by
  intro n
  induction n with
  | zero => intro _; simp [speed_after]
  | succ k ih =>
    intro hk
    have hs : speed_after 20 (2/5) 1 0 1 k = k * (2/5) := ih (Nat.le_of_succ_le hk)
    have hk49 : (k : ℚ) ≤ 49 := by
      exact_mod_cast Nat.lt_succ_iff.mp (Nat.lt_of_succ_le hk)
    have hb : (k : ℚ) * (2/5) + 2/5 ≤ 20 := by linarith
    calc speed_after 20 (2/5) 1 0 1 (k + 1)
        = (calculate_motion 1 0 20 (2/5) (speed_after 20 (2/5) 1 0 1 k) 1).2 := rfl
      _ = (k : ℚ) * (2/5) + 2/5 := by rw [hs]; exact calculate_motion_full_step _ hb
      _ = ((k + 1 : ℕ) : ℚ) * (2/5) := by push_cast; ring

/-- C1: per stick tick, `_calculate_motion` returns `((0,0), 0)` when the
shaped input magnitude is `0`; otherwise, with `target = min(m*M, M)`, the
new speed is `min(target, s + a)` when `target > s` and
`max(target, s - 2a)` otherwise, and the output velocity is the unit input
vector scaled by the new speed.  Concretely, with max speed `20`,
acceleration `0.4`, starting speed `0` and sustained full-magnitude input,
the speed after `10` ticks is exactly `4` and is non-decreasing tick to
tick. -/
theorem calculate_motion_velocity_curve (x y M a s m : ℚ)
    (hm : 0 ≤ m) (hmag : m * m = x * x + y * y) :
    (m = 0 → calculate_motion x y M a s m = ((0, 0), 0)) ∧
    (m ≠ 0 →
      calculate_motion x y M a s m =
        ((x / m * (if min (m * M) M > s then min (min (m * M) M) (s + a)
                   else max (min (m * M) M) (s - a * 2)),
          y / m * (if min (m * M) M > s then min (min (m * M) M) (s + a)
                   else max (min (m * M) M) (s - a * 2))),
         if min (m * M) M > s then min (min (m * M) M) (s + a)
         else max (min (m * M) M) (s - a * 2))) ∧
    speed_after 20 (2/5) 1 0 1 10 = 4 ∧
    (∀ n, n < 10 → speed_after 20 (2/5) 1 0 1 n ≤ speed_after 20 (2/5) 1 0 1 (n + 1)) := by
  refine ⟨fun h0 => ?_, fun hne => ?_, ?_, ?_⟩
  · simp [calculate_motion, h0]
  · have hpos : 0 < m := lt_of_le_of_ne hm (Ne.symm hne)
    simp [calculate_motion, hpos, pymin_eq_min, pymax_eq_max]
  · rw [speed_after_ramp_formula 10 (by norm_num)]
    norm_num
  · intro n hn
    rw [speed_after_ramp_formula n (by omega), speed_after_ramp_formula (n + 1) (by omega)]
    have hcast : ((n : ℕ) : ℚ) ≤ ((n + 1 : ℕ) : ℚ) := by exact_mod_cast Nat.le_succ n
    have h25 : (0 : ℚ) ≤ 2/5 := by norm_num
    exact mul_le_mul_of_nonneg_right hcast h25

/-- Witness for C1: full-magnitude input `(1, 0)` with max speed `20` and
acceleration `2/5`, reaching speed `4` after ten ticks. -/
theorem calculate_motion_velocity_curve_witness :
    (0 : ℚ) ≤ 1 ∧ speed_after 20 (2/5) 1 0 1 10 = 4 :=
  ⟨by norm_num,
    (calculate_motion_velocity_curve 1 0 20 (2/5) 0 1 (by norm_num) (by norm_num)).2.2.1⟩

/-- One application of the velocity curve keeps the persisted speed within
`[0, max_speed]`. -/
theorem calculate_motion_speed_bounds (x y M a s m : ℚ) (hM : 0 < M) (ha : 0 < a)
    (h0 : 0 ≤ s) (h1 : s ≤ M) :
    0 ≤ (calculate_motion x y M a s m).2 ∧ (calculate_motion x y M a s m).2 ≤ M := by
  by_cases hm : m > 0
  · rw [calculate_motion_snd x y M a s m hm]
    have htpos : 0 < min (m * M) M := lt_min (mul_pos hm hM) hM
    have htM : min (m * M) M ≤ M := min_le_right _ _
    constructor
    · split_ifs with h2
      · exact le_min htpos.le (by linarith)
      · exact le_trans htpos.le (le_max_left _ _)
    · split_ifs with h2
      · exact le_trans (min_le_left _ _) htM
      · exact max_le htM (by linarith)
  · rw [calculate_motion_snd_zero x y M a s m hm]
    exact ⟨le_refl 0, hM.le⟩

/-- Folding the velocity curve over any tick sequence preserves the speed
bounds. -/
theorem speed_foldl_bounds (M a : ℚ) (hM : 0 < M) (ha : 0 < a) :
    ∀ (inputs : List (ℚ × ℚ × ℚ)) (s : ℚ), 0 ≤ s → s ≤ M →
      0 ≤ inputs.foldl (fun t i => (calculate_motion i.1 i.2.1 M a t i.2.2).2) s ∧
      inputs.foldl (fun t i => (calculate_motion i.1 i.2.1 M a t i.2.2).2) s ≤ M := by
  intro inputs
  induction inputs with
  | nil => intro s h0 h1; exact ⟨h0, h1⟩
  | cons i rest ih =>
    intro s h0 h1
    have hb := calculate_motion_speed_bounds i.1 i.2.1 M a s i.2.2 hM ha h0 h1
    simpa only [List.foldl_cons] using ih _ hb.1 hb.2

/-- C5: for every stick, the persisted speed scalar stays within
`[0, max_speed]` after every sampling tick, starting from the speed `0` set
in `__init__`, provided the stick's max speed and acceleration step are
positive. -/
theorem speed_invariant_bounds (M a : ℚ) (hM : 0 < M) (ha : 0 < a)
    (inputs : List (ℚ × ℚ × ℚ)) :
    0 ≤ speed_after_ticks M a inputs ∧ speed_after_ticks M a inputs ≤ M :=
  speed_foldl_bounds M a hM ha inputs 0 le_rfl hM.le

/-- Witness for C5 with the left stick's default configuration and one
full-deflection tick. -/
theorem speed_invariant_bounds_witness :
    0 ≤ speed_after_ticks 20 (2/5) [(1, 0, 1)] ∧ speed_after_ticks 20 (2/5) [(1, 0, 1)] ≤ 20 :=
  speed_invariant_bounds 20 (2/5) (by norm_num) (by norm_num) [(1, 0, 1)]

/-- Polls that keep reporting the stored pressed state emit no click
events. -/
theorem run_button_held : ∀ k, run_button (List.replicate k true) true = ([], true) := by
  intro k
  induction k with
  | zero => rfl
  | succ n ih => simp [List.replicate_succ, run_button, handle_button, ih]

/-- `run_button` splits over concatenation of poll sequences. -/
theorem run_button_append (xs ys : List Bool) : ∀ st, run_button (xs ++ ys) st =
    ((run_button xs st).1 ++ (run_button ys (run_button xs st).2).1,
     (run_button ys (run_button xs st).2).2) := by
  induction xs with
  | nil => intro st; simp [run_button]
  | cons c cs ih => intro st; simp [run_button, ih, List.append_assoc]

/-- C6: a click event is emitted exactly when the freshly polled state
differs from the stored state (`some current` encodes down if now pressed,
up if now released), and the stored state changes only then; a button held
pressed across `n > 0` consecutive polls emits exactly one press event, and
a following released poll emits exactly one release event. -/
theorem click_edge_detector (n : ℕ) (hn : 0 < n) (current stored : Bool) :
    ((handle_button current stored).1 = if current ≠ stored then some current else none) ∧
    ((handle_button current stored).2 = if current ≠ stored then current else stored) ∧
    run_button (List.replicate n true) false = ([true], true) ∧
    run_button (List.replicate n true ++ [false]) false = ([true, false], false) := by
  obtain ⟨k, rfl⟩ : ∃ k, n = k + 1 := ⟨n - 1, (Nat.succ_pred_eq_of_pos hn).symm⟩
  have h3 : run_button (List.replicate (k + 1) true) false = ([true], true) := by
    rw [List.replicate_succ]
    simp [run_button, handle_button, run_button_held k]
  refine ⟨?_, ?_, h3, ?_⟩
  · by_cases h : current ≠ stored <;> simp [handle_button, h]
  · by_cases h : current ≠ stored <;> simp [handle_button, h]
  · rw [run_button_append, h3]
    simp [run_button, handle_button]

/-- Witness for C6: one hundred pressed polls then one released poll. -/
theorem click_edge_detector_witness :
    run_button (List.replicate 100 true) false = ([true], true) ∧
    run_button (List.replicate 100 true ++ [false]) false = ([true, false], false) :=
  ⟨(click_edge_detector 100 (by norm_num) true false).2.2.1,
   (click_edge_detector 100 (by norm_num) true false).2.2.2⟩

/-- C3 fails on the code at a concrete state: with the left stick moving at
velocity `(1/2, 0)`, the summed displacement truncates to `(0, 0)` — so the
claim's condition says nothing is emitted — yet `_mouse_mover` does emit a
pointer-move command (with zero displacement), because its guard
`if total_x or total_y` tests the untruncated sum. -/
theorem mouse_mover_trunc_counterexample :
    mouse_mover_tick mouse_mover_cex_state = some (0, 0) ∧
    int_trunc (mouse_mover_cex_state.left_motion.1 + mouse_mover_cex_state.right_motion.1) = 0 ∧
    int_trunc (mouse_mover_cex_state.left_motion.2 + mouse_mover_cex_state.right_motion.2) = 0 := by
  have h2 : int_trunc ((1:ℚ)/2) = 0 := by
    rw [int_trunc, if_neg (by norm_num), Int.floor_eq_iff]
    norm_num
  have h0 : int_trunc (0:ℚ) = 0 := by
    rw [int_trunc, if_neg (by norm_num)]
    norm_num
  refine ⟨?_, ?_, ?_⟩
  · norm_num [mouse_mover_tick, mouse_mover_cex_state, h2, h0]
  · norm_num [mouse_mover_cex_state, h2]
  · norm_num [mouse_mover_cex_state, h0]

/-- C3 as amended: on each emission-loop tick a pointer-move command is
emitted iff the untruncated sum of the two velocity vectors is non-zero in
some component, and when emitted its displacement is the truncated sum
(which may be `(0, 0)`). -/
theorem mouse_mover_tick_emission (s : ControllerState) :
    ((mouse_mover_tick s).isSome ↔
      (s.left_motion.1 + s.right_motion.1 ≠ 0 ∨ s.left_motion.2 + s.right_motion.2 ≠ 0)) ∧
    (∀ dx dy, mouse_mover_tick s = some (dx, dy) →
      dx = int_trunc (s.left_motion.1 + s.right_motion.1) ∧
      dy = int_trunc (s.left_motion.2 + s.right_motion.2)) := by
  by_cases h : s.left_motion.1 + s.right_motion.1 ≠ 0 ∨ s.left_motion.2 + s.right_motion.2 ≠ 0
  · constructor
    · simp [mouse_mover_tick, h]
    · intro dx dy hdx
      simp only [mouse_mover_tick, if_pos h, Option.some.injEq, Prod.mk.injEq] at hdx
      exact ⟨hdx.1.symm, hdx.2.symm⟩
  · constructor
    · simp [mouse_mover_tick, h]
    · intro dx dy hdx
      simp [mouse_mover_tick, h] at hdx

/-- Witness for C3 (amended) at a state whose right stick moves by whole
units. -/
theorem mouse_mover_tick_emission_witness :
    ((mouse_mover_tick mouse_mover_wit_state).isSome ↔
      (mouse_mover_wit_state.left_motion.1 + mouse_mover_wit_state.right_motion.1 ≠ 0 ∨
       mouse_mover_wit_state.left_motion.2 + mouse_mover_wit_state.right_motion.2 ≠ 0)) ∧
    (∀ dx dy, mouse_mover_tick mouse_mover_wit_state = some (dx, dy) →
      dx = int_trunc (mouse_mover_wit_state.left_motion.1 + mouse_mover_wit_state.right_motion.1) ∧
      dy = int_trunc (mouse_mover_wit_state.left_motion.2 + mouse_mover_wit_state.right_motion.2)) :=
  mouse_mover_tick_emission mouse_mover_wit_state

/-- C8: whenever an iteration body of either loop raises, the error is
logged, the controller is fully stopped (running false, both scroll flags
cleared), and the loop performs no further iterations — appending further
ticks changes nothing about the outcome. -/
theorem loop_fail_fast (bodies extra : List (ControllerState → Except String ControllerState))
    (s : ControllerState) (h : (run_loop bodies s).errored = true) :
    run_loop (bodies ++ extra) s = run_loop bodies s ∧
    (run_loop bodies s).state.running = false ∧
    (run_loop bodies s).state.scroll_up_active = false ∧
    (run_loop bodies s).state.scroll_down_active = false ∧
    1 ≤ (run_loop bodies s).logged := by
  induction bodies generalizing s with
  | nil => simp [run_loop] at h
  | cons body rest ih =>
    by_cases hr : s.running
    · cases hb : body s with
      | ok s2 =>
        have h2 : (run_loop rest s2).errored = true := by
          simpa [run_loop, hr, hb] using h
        have hrest := ih s2 h2
        refine ⟨?_, ?_, ?_, ?_, ?_⟩
        · show run_loop (body :: (rest ++ extra)) s = run_loop (body :: rest) s
          simp [run_loop, hr, hb, hrest.1]
        · simpa [run_loop, hr, hb] using hrest.2.1
        · simpa [run_loop, hr, hb] using hrest.2.2.1
        · simpa [run_loop, hr, hb] using hrest.2.2.2.1
        · simpa [run_loop, hr, hb] using hrest.2.2.2.2
      | error e =>
        refine ⟨?_, ?_, ?_, ?_, ?_⟩
        · show run_loop (body :: (rest ++ extra)) s = run_loop (body :: rest) s
          simp [run_loop, hr, hb]
        · simp [run_loop, hr, hb, stop]
        · simp [run_loop, hr, hb, stop]
        · simp [run_loop, hr, hb, stop]
        · simp [run_loop, hr, hb]
    · simp [run_loop, hr] at h

/-- Witness for C8: a single raising body on a running controller. -/
theorem loop_fail_fast_witness :
    run_loop ([loop_err_body] ++ [loop_err_body]) loop_wit_state =
      run_loop [loop_err_body] loop_wit_state ∧
    (run_loop [loop_err_body] loop_wit_state).state.running = false ∧
    (run_loop [loop_err_body] loop_wit_state).state.scroll_up_active = false ∧
    (run_loop [loop_err_body] loop_wit_state).state.scroll_down_active = false ∧
    1 ≤ (run_loop [loop_err_body] loop_wit_state).logged :=
  loop_fail_fast [loop_err_body] [loop_err_body] loop_wit_state rfl

/-- C9: `stop()` sets the running flag to false and sets the active flag of
every scroll direction to false, and `stop()` is idempotent: from any
controller state, calling it twice ends in the same state as calling it
once. -/
theorem stop_idempotent (s : ControllerState) :
    (stop s).running = false ∧ (stop s).scroll_up_active = false ∧
    (stop s).scroll_down_active = false ∧ stop (stop s) = stop s :=
  ⟨rfl, rfl, rfl, rfl⟩

/-- Witness for C9 at a fully switched-on controller state. -/
theorem stop_idempotent_witness :
    (stop stop_wit_state).running = false ∧ (stop stop_wit_state).scroll_up_active = false ∧
    (stop stop_wit_state).scroll_down_active = false ∧
    stop (stop stop_wit_state) = stop stop_wit_state :=
  stop_idempotent stop_wit_state

/-- C10: `stop()` modifies only the running flag and the two scroll active
flags; the motion state (velocity vectors and speed scalars), the button
edge states, and the configuration are left unchanged. -/
theorem stop_frame (s : ControllerState) :
    (stop s).config = s.config ∧
    (stop s).left_motion = s.left_motion ∧ (stop s).right_motion = s.right_motion ∧
    (stop s).left_speed = s.left_speed ∧ (stop s).right_speed = s.right_speed ∧
    (stop s).left_click_state = s.left_click_state ∧
    (stop s).right_click_state = s.right_click_state ∧
    (stop s).running = false ∧ (stop s).scroll_up_active = false ∧
    (stop s).scroll_down_active = false :=
  ⟨rfl, rfl, rfl, rfl, rfl, rfl, rfl, rfl, rfl, rfl⟩

/-- Witness for C10 at a state with non-trivial motion and button data. -/
theorem stop_frame_witness :
    (stop stop_frame_wit_state).config = stop_frame_wit_state.config ∧
    (stop stop_frame_wit_state).left_motion = stop_frame_wit_state.left_motion ∧
    (stop stop_frame_wit_state).right_motion = stop_frame_wit_state.right_motion ∧
    (stop stop_frame_wit_state).left_speed = stop_frame_wit_state.left_speed ∧
    (stop stop_frame_wit_state).right_speed = stop_frame_wit_state.right_speed ∧
    (stop stop_frame_wit_state).left_click_state = stop_frame_wit_state.left_click_state ∧
    (stop stop_frame_wit_state).right_click_state = stop_frame_wit_state.right_click_state ∧
    (stop stop_frame_wit_state).running = false ∧
    (stop stop_frame_wit_state).scroll_up_active = false ∧
    (stop stop_frame_wit_state).scroll_down_active = false :=
  stop_frame stop_frame_wit_state

/-- C4, evaluated at the failing schedule: starting idle, a sampling tick
with the scroll button pressed dispatches a repeater thread but leaves the
direction's active flag false (the flag is only set by `_scroll_thread`
itself once the new thread runs, modelled by `scroll_thread_start`); hence a
second sampling tick arriving before the thread's first statement dispatches
a duplicate thread for the same direction. -/
theorem scroll_dispatch_race :
    ((handle_scroll true {}).active = false ∧ (handle_scroll true {}).started = 1) ∧
    (handle_scroll true (handle_scroll true {})).started = 2 ∧
    (scroll_thread_start (handle_scroll true {})).active = true := by
  decide

/-- The scroll repeater delay never drops below the floor `0.02`. -/
theorem scroll_delay_ge_floor : ∀ n, (2/100 : ℚ) ≤ scroll_delay n
  | 0 => by norm_num [scroll_delay]
  | n + 1 => le_max_left _ _

/-- Closed form of the scroll repeater delay. -/
theorem scroll_delay_closed_form :
    ∀ n, scroll_delay n = max (2/100) ((12/100) * (9/10) ^ n)
  | 0 => by
    have h : (2/100 : ℚ) ≤ (12/100) * (9/10) ^ 0 := by norm_num
    rw [max_eq_right h]
    norm_num [scroll_delay]
  | n + 1 => by
    simp only [scroll_delay]
    rw [scroll_delay_closed_form n,
      max_mul_of_nonneg _ _ (by norm_num : (0:ℚ) ≤ 9/10), ← max_assoc]
    congr 1
    · rw [max_eq_left (by norm_num : (2/100 : ℚ) * (9/10) ≤ 2/100)]
    · ring

/-- From iteration 18 on, the scroll repeater delay stays at the floor. -/
theorem scroll_delay_floor_from (n : ℕ) (h : 18 ≤ n) : scroll_delay n = 2/100 := by
  rw [scroll_delay_closed_form n, max_eq_left]
  calc (12/100 : ℚ) * (9/10) ^ n ≤ (12/100) * (9/10) ^ 18 :=
        mul_le_mul_of_nonneg_left
          (pow_le_pow_of_le_one (by norm_num) (by norm_num) h) (by norm_num)
    _ ≤ 2/100 := by norm_num

/-- C7: in every scroll repeater task the per-iteration delay starts at
`0.12`, each subsequent delay is `max(0.02, previous * 0.9)`, the delay is
at least `0.02` at every iteration, and after finitely many iterations
(18) it reaches and stays at the floor `0.02`; every emitted scroll event
has a positive tick count for the up direction and a negative one for the
down direction. -/
theorem scroll_thread_decay :
    scroll_delay 0 = 12/100 ∧
    (∀ n, scroll_delay (n + 1) = max (2/100) (scroll_delay n * (9/10))) ∧
    (∀ n, (2/100 : ℚ) ≤ scroll_delay n) ∧
    (∃ N, ∀ n, N ≤ n → scroll_delay n = 2/100) ∧
    0 < scroll_amount ScrollDir.up ∧ scroll_amount ScrollDir.down < 0 :=
  ⟨rfl, fun _ => rfl, scroll_delay_ge_floor,
    ⟨18, fun n hn => scroll_delay_floor_from n hn⟩, by decide, by decide⟩

end AnalogMouseControl
